import Mathlib

/-!
Shallow embedding of the MetaCSV field-description layer of py-mcsv
(`src/mcsv/field_descriptions.py`) and of the row-mapping part of the
writer (`src/mcsv/writer.py`), together with theorems about the
properties of this code.

Modules of the repository that are imported by the two source files but
are not part of the source tree (`mcsv.field_description`,
`mcsv.field_processors`, `mcsv.util`, `mcsv.meta_csv_data`) are modelled
from the specification; every such definition carries a doc comment
starting with `Modelled from the spec:`.
-/

namespace Mcsv

/-- Modelled from the spec: `mcsv.field_description.DataType` (the module is
absent from src). §3 of the spec: a closed enumeration of the eleven logical
column types, immutable, no lifecycle. -/
inductive DataType where
  | BOOLEAN
  | INTEGER
  | FLOAT
  | DECIMAL
  | CURRENCY_INTEGER
  | CURRENCY_DECIMAL
  | PERCENTAGE_FLOAT
  | PERCENTAGE_DECIMAL
  | DATE
  | DATETIME
  | TEXT
deriving DecidableEq, Repr

/-- Python is dynamically typed: the registry lookup
`data_type_to_field_description` may be handed any runtime value, not only a
member of the `DataType` enumeration.  A value outside the enumeration is
modelled by the `unknown` case (the `Nat` tag distinguishes such values). -/
inductive DataTypeValue where
  | known (dt : DataType)
  | unknown (tag : Nat)
deriving DecidableEq, Repr

/-- Modelled from the spec: `mcsv.util.none_to_empty` (the module is absent
from src).  §4.1/§6: an absent optional parameter is written as an empty
segment, so a `None` parameter becomes the empty string. -/
def none_to_empty : Option String → String
  | none => ""
  | some s => s

namespace util

/-- Modelled from the spec: `mcsv.util.render` (the module is absent from
src).  §6: the canonical form is slash-delimited; `render(out, *args)`
writes the argument strings joined by the literal separator "/"
(Python's "/".join). -/
def render : List String → String
  | [] => ""
  | [a] => a
  | a :: rest => a ++ "/" ++ render rest

end util

/-- Python truthiness of an `Optional[bool]` value, as used by
`"pre" if self._pre else "post"`: `None` and `False` are falsy. -/
def optBoolTruthy : Option Bool → Bool
  | some true => true
  | _ => false

/-- The closed family of field descriptions of
`src/mcsv/field_descriptions.py`, one constructor per class.  The wrapped
description of a composite variant is an `Option`: the Python attribute is
annotated `FieldDescription` but at runtime it holds whatever object was
passed to the constructor, and the module-initialisation block does pass
`None` there (see the `INSTANCE` definitions below). -/
inductive FieldDescription where
  | BooleanFieldDescription (true_word false_word : String)
  | CurrencyDecimalFieldDescription (pre : Option Bool) (currency : Option String)
      (decimal_description : Option FieldDescription)
  | CurrencyIntegerFieldDescription (pre : Option Bool) (currency : Option String)
      (integer_description : Option FieldDescription)
  | DateFieldDescription (date_format : String) (locale_name : Option String)
  | DatetimeFieldDescription (date_format : String) (locale_name : Option String)
  | DecimalFieldDescription (thousand_sep : Option String) (decimal_sep : String)
  | FloatFieldDescription (thousand_sep : Option String) (decimal_sep : String)
  | IntegerFieldDescription (thousand_sep : Option String)
  | PercentageFloatFieldDescription (pre : Bool) (sign : Option String)
      (float_description : Option FieldDescription)
  | PercentageDecimalFieldDescription (pre : Bool) (sign : Option String)
      (decimal_description : Option FieldDescription)
  | TextFieldDescription
deriving Repr

/-- Embeds the `render(self, out)` method of each description class.  The
Python method writes to a text stream incrementally; we return the string
written to the stream together with a success flag: a composite whose
wrapped description is `None` writes its own segments and the literal "/"
separator, then raises `AttributeError` when it calls `None.render` — the
flag is `false` and the first component holds what was written before the
raise. -/
def FieldDescription.render : FieldDescription → String × Bool
  | .BooleanFieldDescription t f =>
    if f ≠ "" then (util.render ["boolean", t, f], true)
    else (util.render ["boolean", t], true)
  | .CurrencyDecimalFieldDescription pre currency dd =>
    let pre_s := none_to_empty (some (if optBoolTruthy pre then "pre" else "post"))
    let currency_s := none_to_empty currency
    match dd with
    | none => (util.render ["currency", pre_s, currency_s] ++ "/", false)
    | some d =>
      let r := d.render
      (util.render ["currency", pre_s, currency_s] ++ "/" ++ r.1, r.2)
  | .CurrencyIntegerFieldDescription pre currency idesc =>
    let pre_s := none_to_empty (some (if optBoolTruthy pre then "pre" else "post"))
    let currency_s := none_to_empty currency
    match idesc with
    | none => (util.render ["currency", pre_s, currency_s] ++ "/", false)
    | some d =>
      let r := d.render
      (util.render ["currency", pre_s, currency_s] ++ "/" ++ r.1, r.2)
  | .DateFieldDescription fmt loc =>
    match loc with
    | none => (util.render ["date", fmt], true)
    | some l => (util.render ["date", fmt, l], true)
  | .DatetimeFieldDescription fmt loc =>
    match loc with
    | none => (util.render ["datetime", fmt], true)
    | some l => (util.render ["datetime", fmt, l], true)
  | .DecimalFieldDescription ts ds => (util.render ["decimal", none_to_empty ts, ds], true)
  | .FloatFieldDescription ts ds => (util.render ["float", none_to_empty ts, ds], true)
  | .IntegerFieldDescription ts =>
    match ts with
    | none => ("integer", true)
    | some s => (util.render ["integer", none_to_empty (some s)], true)
  | .PercentageFloatFieldDescription pre sign fd =>
    let pre_s := none_to_empty (some (if pre then "pre" else "post"))
    match fd with
    | none => (util.render ["percentage", pre_s, none_to_empty sign] ++ "/", false)
    | some d =>
      let r := d.render
      (util.render ["percentage", pre_s, none_to_empty sign] ++ "/" ++ r.1, r.2)
  | .PercentageDecimalFieldDescription pre sign dd =>
    let pre_s := none_to_empty (some (if pre then "pre" else "post"))
    match dd with
    | none => (util.render ["percentage", pre_s, none_to_empty sign] ++ "/", false)
    | some d =>
      let r := d.render
      (util.render ["percentage", pre_s, none_to_empty sign] ++ "/" ++ r.1, r.2)
  | .TextFieldDescription => ("text", true)

/-- Embeds the `get_data_type(self)` method of each description class. -/
def FieldDescription.get_data_type : FieldDescription → DataType
  | .BooleanFieldDescription _ _ => .BOOLEAN
  | .CurrencyDecimalFieldDescription _ _ _ => .CURRENCY_DECIMAL
  | .CurrencyIntegerFieldDescription _ _ _ => .CURRENCY_INTEGER
  | .DateFieldDescription _ _ => .DATE
  | .DatetimeFieldDescription _ _ => .DATETIME
  | .DecimalFieldDescription _ _ => .DECIMAL
  | .FloatFieldDescription _ _ => .FLOAT
  | .IntegerFieldDescription _ => .INTEGER
  | .PercentageFloatFieldDescription _ _ _ => .PERCENTAGE_FLOAT
  | .PercentageDecimalFieldDescription _ _ _ => .PERCENTAGE_DECIMAL
  | .TextFieldDescription => .TEXT

/-!
The canonical forms (source lines 371–387).  The Python block assigns the
class attributes `INSTANCE` in source order; each right-hand side is
evaluated eagerly, reading the value the referenced attribute holds *at
that point*.  The class-level value of every `INSTANCE` attribute before
the block is `None`.
-/

/-- Source line 372. -/
def BooleanFieldDescription.INSTANCE : FieldDescription :=
  .BooleanFieldDescription "true" "false"

/-- Source lines 373–374: `CurrencyIntegerFieldDescription(None, None,
IntegerFieldDescription.INSTANCE)`.  At this point
`IntegerFieldDescription.INSTANCE` still holds the class-level `None`
(it is only assigned at source line 382), so the default currency-integer
description wraps `none`. -/
def CurrencyIntegerFieldDescription.INSTANCE : FieldDescription :=
  .CurrencyIntegerFieldDescription none none none

/-- Source lines 375–376: `CurrencyDecimalFieldDescription(None, None,
DecimalFieldDescription.INSTANCE)`.  At this point
`DecimalFieldDescription.INSTANCE` still holds the class-level `None`
(it is only assigned at source line 380), so the default currency-decimal
description wraps `none`. -/
def CurrencyDecimalFieldDescription.INSTANCE : FieldDescription :=
  .CurrencyDecimalFieldDescription none none none

/-- Source line 377. -/
def DateFieldDescription.INSTANCE : FieldDescription :=
  .DateFieldDescription "yyyy-MM-dd" none

/-- Source lines 378–379. -/
def DatetimeFieldDescription.INSTANCE : FieldDescription :=
  .DatetimeFieldDescription "yyyy-MM-dd'T'HH:mm:ss" none

/-- Source line 380. -/
def DecimalFieldDescription.INSTANCE : FieldDescription :=
  .DecimalFieldDescription none "."

/-- Source line 381. -/
def FloatFieldDescription.INSTANCE : FieldDescription :=
  .FloatFieldDescription none "."

/-- Source line 382: `IntegerFieldDescription()` with the default
`thousand_sep=None`. -/
def IntegerFieldDescription.INSTANCE : FieldDescription :=
  .IntegerFieldDescription none

/-- Source lines 383–384: at this point `DecimalFieldDescription.INSTANCE`
has already been assigned (line 380), so the wrapped description is the
decimal default. -/
def PercentageDecimalFieldDescription.INSTANCE : FieldDescription :=
  .PercentageDecimalFieldDescription false (some "%") (some DecimalFieldDescription.INSTANCE)

/-- Source lines 385–386: at this point `FloatFieldDescription.INSTANCE`
has already been assigned (line 381), so the wrapped description is the
float default. -/
def PercentageFloatFieldDescription.INSTANCE : FieldDescription :=
  .PercentageFloatFieldDescription false (some "%") (some FloatFieldDescription.INSTANCE)

/-- Source line 387. -/
def TextFieldDescription.INSTANCE : FieldDescription :=
  .TextFieldDescription

/-- Python's `dict.get(key, default)` over an association list (the literal
dictionary of `data_type_to_field_description`; its keys are distinct). -/
def dict_get {α β : Type} [DecidableEq α] : List (α × β) → α → β → β
  | [], _, default => default
  | (k, v) :: rest, key, default =>
    if k = key then v else dict_get rest key default

/-- Python's `key in dict` / `dict[key]` over an association list, combined
into one lookup (the dictionaries in our use have distinct keys). -/
def dict_find {α β : Type} [DecidableEq α] : List (α × β) → α → Option β
  | [], _ => none
  | (k, v) :: rest, key =>
    if k = key then some v else dict_find rest key

/-- Embeds `data_type_to_field_description` (source lines 390–404): a
dictionary literal keyed by the eleven `DataType` members, looked up with
`.get(data_type, TextFieldDescription.INSTANCE)`. -/
def data_type_to_field_description (data_type : DataTypeValue) : FieldDescription :=
  dict_get [
    (.known .BOOLEAN, BooleanFieldDescription.INSTANCE),
    (.known .CURRENCY_INTEGER, CurrencyIntegerFieldDescription.INSTANCE),
    (.known .CURRENCY_DECIMAL, CurrencyDecimalFieldDescription.INSTANCE),
    (.known .DATE, DateFieldDescription.INSTANCE),
    (.known .DATETIME, DatetimeFieldDescription.INSTANCE),
    (.known .DECIMAL, DecimalFieldDescription.INSTANCE),
    (.known .FLOAT, FloatFieldDescription.INSTANCE),
    (.known .INTEGER, IntegerFieldDescription.INSTANCE),
    (.known .PERCENTAGE_DECIMAL, PercentageDecimalFieldDescription.INSTANCE),
    (.known .PERCENTAGE_FLOAT, PercentageFloatFieldDescription.INSTANCE),
    (.known .TEXT, TextFieldDescription.INSTANCE)
  ] data_type TextFieldDescription.INSTANCE

/-- Modelled from the spec: the field-processor classes of
`mcsv.field_processors` (the module is absent from src).  One constructor
per class, holding exactly the arguments the `to_field_processor` methods
of `src/mcsv/field_descriptions.py` pass.  The date/datetime processor's
first Python argument (`date.fromtimestamp` vs `datetime.fromtimestamp`)
is modelled by the boolean tag `is_datetime`. -/
inductive FieldProcessor where
  | BooleanFieldProcessor (true_word false_word null_value : String)
  | CurrencyFieldProcessor (pre : Option Bool) (currency : Option String)
      (processor : FieldProcessor) (null_value : String)
  | DateAndDatetimeFieldProcessor (is_datetime : Bool) (date_format : String)
      (locale_name : Option String) (null_value : String)
  | DecimalFieldProcessor (thousand_sep : Option String) (decimal_sep null_value : String)
  | FloatFieldProcessor (thousand_sep : Option String) (decimal_sep null_value : String)
  | IntegerFieldProcessor (thousand_sep : Option String) (null_value : String)
  | PercentageFieldProcessor (pre : Bool) (sign : Option String)
      (processor : FieldProcessor) (null_value : String)
  | TextFieldProcessor (null_value : String)
deriving Repr

/-- Embeds the `to_field_processor(self, null_value)` method of each
description class.  Python methods can in principle mutate `self`, so the
embedding passes state: the result is the constructed processor together
with the description as it stands after the call (a composite rebuilds
itself around whatever its wrapped description is after the recursive
call).  A composite whose wrapped description is `None` raises
`AttributeError` (`None.to_field_processor`), modelled by `none`. -/
def FieldDescription.to_field_processor : FieldDescription → String →
    Option (FieldProcessor × FieldDescription)
  | .BooleanFieldDescription t f, nv =>
    some (.BooleanFieldProcessor t f nv, .BooleanFieldDescription t f)
  | .CurrencyDecimalFieldDescription pre currency dd, nv =>
    match dd with
    | none => none
    | some d1 =>
      match d1.to_field_processor nv with
      | none => none
      | some (p, d2) =>
        some (.CurrencyFieldProcessor pre currency p nv,
              .CurrencyDecimalFieldDescription pre currency (some d2))
  | .CurrencyIntegerFieldDescription pre currency idesc, nv =>
    match idesc with
    | none => none
    | some d1 =>
      match d1.to_field_processor nv with
      | none => none
      | some (p, d2) =>
        some (.CurrencyFieldProcessor pre currency p nv,
              .CurrencyIntegerFieldDescription pre currency (some d2))
  | .DateFieldDescription fmt loc, nv =>
    some (.DateAndDatetimeFieldProcessor false fmt loc nv, .DateFieldDescription fmt loc)
  | .DatetimeFieldDescription fmt loc, nv =>
    some (.DateAndDatetimeFieldProcessor true fmt loc nv, .DatetimeFieldDescription fmt loc)
  | .DecimalFieldDescription ts ds, nv =>
    some (.DecimalFieldProcessor ts ds nv, .DecimalFieldDescription ts ds)
  | .FloatFieldDescription ts ds, nv =>
    some (.FloatFieldProcessor ts ds nv, .FloatFieldDescription ts ds)
  | .IntegerFieldDescription ts, nv =>
    some (.IntegerFieldProcessor ts nv, .IntegerFieldDescription ts)
  | .PercentageFloatFieldDescription pre sign fd, nv =>
    match fd with
    | none => none
    | some d1 =>
      match d1.to_field_processor nv with
      | none => none
      | some (p, d2) =>
        some (.PercentageFieldProcessor pre sign p nv,
              .PercentageFloatFieldDescription pre sign (some d2))
  | .PercentageDecimalFieldDescription pre sign dd, nv =>
    match dd with
    | none => none
    | some d1 =>
      match d1.to_field_processor nv with
      | none => none
      | some (p, d2) =>
        some (.PercentageFieldProcessor pre sign p nv,
              .PercentageDecimalFieldDescription pre sign (some d2))
  | .TextFieldDescription, nv =>
    some (.TextFieldProcessor nv, .TextFieldDescription)

/-- A description is proper when every wrapped description slot actually
holds a description, as the constructor annotations of
`src/mcsv/field_descriptions.py` intend (`FieldDescription`, not
`Optional[FieldDescription]`). -/
def FieldDescription.proper : FieldDescription → Bool
  | .CurrencyDecimalFieldDescription _ _ dd =>
    match dd with
    | none => false
    | some d => d.proper
  | .CurrencyIntegerFieldDescription _ _ idesc =>
    match idesc with
    | none => false
    | some d => d.proper
  | .PercentageFloatFieldDescription _ _ fd =>
    match fd with
    | none => false
    | some d => d.proper
  | .PercentageDecimalFieldDescription _ _ dd =>
    match dd with
    | none => false
    | some d => d.proper
  | _ => true

/-- A cell value handed to the writer.  Python rows hold arbitrary objects;
the model covers the null object and the value kinds the embedded
processors format (booleans, integers, strings). -/
inductive Value where
  | null
  | bool (b : Bool)
  | int (n : Int)
  | str (s : String)
deriving DecidableEq, Repr

/-- Python's built-in `str` conversion on the modelled values. -/
def Value.pyStr : Value → String
  | .null => "None"
  | .bool b => if b then "True" else "False"
  | .int n => toString n
  | .str s => s

/-- Modelled from the spec: the `to_string` (format) operation of the
field-processor classes of `mcsv.field_processors` (the module is absent
from src).  §4.2: a null value formats to the null-value token; Boolean
formats to the configured true/false word; Text is the identity aside from
the null check; Currency lets the wrapped processor format the number and
re-attaches the symbol on the configured side (no symbol when none is
configured); Percentage scales the value by 100, delegates to the wrapped
processor and attaches the sign on the configured side; the numeric
processors write the decimal digits (integers carry no decimal separator,
and the model does not insert thousand-separator grouping).  Date/datetime
pattern formatting is outside the shallow model and falls back to Python
`str`; so does any value of a kind the processor does not format. -/
def FieldProcessor.to_string : FieldProcessor → Value → String
  | .BooleanFieldProcessor _ _ nv, .null => nv
  | .BooleanFieldProcessor t f _, .bool b => if b then t else f
  | .BooleanFieldProcessor _ _ _, v => v.pyStr
  | .CurrencyFieldProcessor _ _ _ nv, .null => nv
  | .CurrencyFieldProcessor pre currency p _, v =>
    let s := p.to_string v
    if optBoolTruthy pre then none_to_empty currency ++ s
    else s ++ none_to_empty currency
  | .DateAndDatetimeFieldProcessor _ _ _ nv, .null => nv
  | .DateAndDatetimeFieldProcessor _ _ _ _, v => v.pyStr
  | .DecimalFieldProcessor _ _ nv, .null => nv
  | .DecimalFieldProcessor _ _ _, v => v.pyStr
  | .FloatFieldProcessor _ _ nv, .null => nv
  | .FloatFieldProcessor _ _ _, v => v.pyStr
  | .IntegerFieldProcessor _ nv, .null => nv
  | .IntegerFieldProcessor _ _, v => v.pyStr
  | .PercentageFieldProcessor _ _ _ nv, .null => nv
  | .PercentageFieldProcessor pre sign p _, v =>
    let scaled := match v with
      | .int n => Value.int (n * 100)
      | w => w
    let s := p.to_string scaled
    if pre then none_to_empty sign ++ s else s ++ none_to_empty sign
  | .TextFieldProcessor nv, .null => nv
  | .TextFieldProcessor _, v => v.pyStr

/-- Modelled from the spec: `mcsv.meta_csv_data.MetaCSVData` (the module is
absent from src), restricted to the two fields the writer's row mapping
reads — the table's single null-value token and the field descriptions
keyed by column index (`field_description_by_index.items()`). -/
structure MetaCSVData where
  null_value : String
  field_description_by_index : List (Nat × FieldDescription)

/-- The dictionary comprehension of `MetaCSVWriterFactory._get_map_row`
(writer.py lines 94–97): one processor per described column, each built
with the table's single null-value token.  An exception raised by a
`to_field_processor` call propagates out of the comprehension, modelled by
`none`. -/
def processors_by_index (null_value : String) :
    List (Nat × FieldDescription) → Option (List (Nat × FieldProcessor))
  | [] => some []
  | (i, d) :: rest =>
    match d.to_field_processor null_value with
    | none => none
    | some (p, _) =>
      match processors_by_index null_value rest with
      | none => none
      | some ps => some ((i, p) :: ps)

namespace MetaCSVWriterFactory

/-- Embeds `MetaCSVWriterFactory._get_map_row` (writer.py lines 93–104):
builds the processor dictionary, then returns the closure
`map_row(row) = [processors[i].to_string(value) if i in processors else
str(value) for i, value in enumerate(row)]`. -/
def get_map_row (data : MetaCSVData) : Option (List Value → List String) :=
  match processors_by_index data.null_value data.field_description_by_index with
  | none => none
  | some processors =>
    some (fun row => row.enum.map (fun iv =>
      match dict_find processors iv.1 with
      | some p => p.to_string iv.2
      | none => iv.2.pyStr))

end MetaCSVWriterFactory

/-- The CSV writer as the row mapping plus the rows already handed to the
underlying `csv.writer`. -/
structure MetaCSVWriter where
  map_row : List Value → List String
  written : List (List String)

/-- Embeds `MetaCSVWriter.writerow` (writer.py lines 39–40): the mapped row
is handed to the underlying writer. -/
def MetaCSVWriter.writerow (w : MetaCSVWriter) (row : List Value) : MetaCSVWriter :=
  { w with written := w.written ++ [w.map_row row] }

/-! Helper lemmas. -/

theorem util.render_two (a b : String) : util.render [a, b] = a ++ "/" ++ b := rfl

theorem util.render_three (a b c : String) :
    util.render [a, b, c] = a ++ "/" ++ b ++ "/" ++ c := by
  show a ++ "/" ++ (b ++ "/" ++ c) = a ++ "/" ++ b ++ "/" ++ c
  simp [String.append_assoc]

/-! Theorems about the claims. -/

/-- Claim C1: for every value handed to `data_type_to_field_description`
that is not one of the eleven recognized `DataType` members, the lookup
returns the Text default instance (`TextFieldDescription.INSTANCE`) and
never raises: the dictionary `.get` falls back to its default. -/
theorem unknown_data_type_falls_back_to_text (v : DataTypeValue)
    (h : ∀ dt : DataType, v ≠ DataTypeValue.known dt) :
    data_type_to_field_description v = TextFieldDescription.INSTANCE := by
  cases v with
  | known dt => exact absurd rfl (h dt)
  | unknown tag => rfl

/-- Witness for claim C1 at the concrete non-member value `unknown 0`. -/
theorem unknown_data_type_falls_back_to_text_witness :
    data_type_to_field_description (DataTypeValue.unknown 0)
      = TextFieldDescription.INSTANCE :=
  unknown_data_type_falls_back_to_text (DataTypeValue.unknown 0)
    (fun _ hdt => DataTypeValue.noConfusion hdt)

/-- Claim C2: for every recognized `DataType` `dt`, the default description
returned by `data_type_to_field_description` satisfies
`get_data_type() == dt`; and for every description variant,
`get_data_type()` is a constant function of the variant, independent of the
instance's parameters. -/
theorem get_data_type_matches_registry_and_is_constant :
    (∀ dt : DataType,
      (data_type_to_field_description (.known dt)).get_data_type = dt) ∧
    (∀ t f, (FieldDescription.BooleanFieldDescription t f).get_data_type
      = DataType.BOOLEAN) ∧
    (∀ pre c dd, (FieldDescription.CurrencyDecimalFieldDescription pre c dd).get_data_type
      = DataType.CURRENCY_DECIMAL) ∧
    (∀ pre c idesc, (FieldDescription.CurrencyIntegerFieldDescription pre c idesc).get_data_type
      = DataType.CURRENCY_INTEGER) ∧
    (∀ fmt loc, (FieldDescription.DateFieldDescription fmt loc).get_data_type
      = DataType.DATE) ∧
    (∀ fmt loc, (FieldDescription.DatetimeFieldDescription fmt loc).get_data_type
      = DataType.DATETIME) ∧
    (∀ ts ds, (FieldDescription.DecimalFieldDescription ts ds).get_data_type
      = DataType.DECIMAL) ∧
    (∀ ts ds, (FieldDescription.FloatFieldDescription ts ds).get_data_type
      = DataType.FLOAT) ∧
    (∀ ts, (FieldDescription.IntegerFieldDescription ts).get_data_type
      = DataType.INTEGER) ∧
    (∀ pre s fd, (FieldDescription.PercentageFloatFieldDescription pre s fd).get_data_type
      = DataType.PERCENTAGE_FLOAT) ∧
    (∀ pre s dd, (FieldDescription.PercentageDecimalFieldDescription pre s dd).get_data_type
      = DataType.PERCENTAGE_DECIMAL) ∧
    FieldDescription.TextFieldDescription.get_data_type = DataType.TEXT := by
  refine ⟨fun dt => ?_, fun _ _ => rfl, fun _ _ _ => rfl, fun _ _ _ => rfl,
    fun _ _ => rfl, fun _ _ => rfl, fun _ _ => rfl, fun _ _ => rfl, fun _ => rfl,
    fun _ _ _ => rfl, fun _ _ _ => rfl, rfl⟩
  cases dt <;> rfl

/-- Claim C3: the canonical default instances use the narrowest valid
parameterization: Integer's default has no thousand separator, Decimal's
default has no thousand separator and decimal separator ".", Boolean's
default uses "true"/"false", and Date's default uses the ISO-like pattern
"yyyy-MM-dd" with no locale. -/
theorem canonical_defaults_narrowest :
    IntegerFieldDescription.INSTANCE = .IntegerFieldDescription none ∧
    DecimalFieldDescription.INSTANCE = .DecimalFieldDescription none "." ∧
    BooleanFieldDescription.INSTANCE = .BooleanFieldDescription "true" "false" ∧
    DateFieldDescription.INSTANCE = .DateFieldDescription "yyyy-MM-dd" none :=
  ⟨rfl, rfl, rfl, rfl⟩

/-- Claim C4: a CurrencyDecimal description with pre=False, currency="$",
wrapping a Decimal description with no thousand separator and decimal
separator ".", renders exactly "currency/post/$/decimal//." — and in
general the composite writes its own segments, a literal "/", then
delegates the rest of the output to the wrapped description's render. -/
theorem currency_decimal_render_composition :
    (FieldDescription.CurrencyDecimalFieldDescription (some false) (some "$")
        (some (.DecimalFieldDescription none "."))).render
      = ("currency/post/$/decimal//.", true) ∧
    (∀ dd : FieldDescription,
      (FieldDescription.CurrencyDecimalFieldDescription (some false) (some "$")
          (some dd)).render
        = ("currency/post/$" ++ "/" ++ dd.render.1, dd.render.2)) :=
  ⟨rfl, fun _ => rfl⟩

/-- Claim C5: the default PercentageFloat instance (pre=False, sign="%",
wrapping the default Float description) renders exactly
"percentage/post/%/float//.". -/
theorem percentage_float_default_render :
    PercentageFloatFieldDescription.INSTANCE.render
      = ("percentage/post/%/float//.", true) := rfl

/-- Claim C6: a Boolean description renders "boolean/<true>/<false>" when
the false word is non-empty and collapses to the single-argument form
"boolean/<true>" when the false word is the empty string. -/
theorem boolean_render_collapses_empty_false_word (t f : String) :
    (FieldDescription.BooleanFieldDescription t f).render
      = ((if f = "" then "boolean" ++ "/" ++ t
          else "boolean" ++ "/" ++ t ++ "/" ++ f), true) := by
  by_cases hf : f = ""
  · simp [FieldDescription.render, util.render_two, hf]
  · simp [FieldDescription.render, util.render_three, hf]

/-- Claim C7: absent trailing optional parameters are dropped from the
rendered form while absent non-trailing optionals are written as empty
segments: an Integer description with no thousand separator renders the
bare "integer" (with a separator s it renders "integer/<s>"), a
Date/Datetime description with no locale renders only "date/<pattern>" or
"datetime/<pattern>", and a Float/Decimal description with no thousand
separator still writes an empty segment before the decimal separator
(e.g. "float//."). -/
theorem optional_segments_render :
    (FieldDescription.IntegerFieldDescription none).render = ("integer", true) ∧
    (∀ s, (FieldDescription.IntegerFieldDescription (some s)).render
      = ("integer" ++ "/" ++ s, true)) ∧
    (∀ p, (FieldDescription.DateFieldDescription p none).render
      = ("date" ++ "/" ++ p, true)) ∧
    (∀ p, (FieldDescription.DatetimeFieldDescription p none).render
      = ("datetime" ++ "/" ++ p, true)) ∧
    (∀ ds, (FieldDescription.FloatFieldDescription none ds).render
      = ("float" ++ "/" ++ "" ++ "/" ++ ds, true)) ∧
    (∀ ds, (FieldDescription.DecimalFieldDescription none ds).render
      = ("decimal" ++ "/" ++ "" ++ "/" ++ ds, true)) ∧
    (FieldDescription.FloatFieldDescription none ".").render = ("float//.", true) := by
  refine ⟨rfl, fun s => rfl, fun p => rfl, fun p => rfl, fun ds => ?_, fun ds => ?_, rfl⟩
  · simp [FieldDescription.render, none_to_empty, util.render_three]
  · simp [FieldDescription.render, none_to_empty, util.render_three]

/-- Claim C9: a currency description (integer or decimal) constructed with
the pre/post flag absent (pre=None) renders exactly as one constructed
with an explicit pre=False, writing the flag segment as "post"; the
default currency instances are constructed with pre=None (and, because of
the assignment ordering of the canonical-forms block, with a missing
wrapped description), and their render writes "currency/post//" — a
"post" segment rather than an empty one — before failing on the missing
wrapped description (success flag false). -/
theorem currency_absent_pre_flag_renders_post :
    (∀ (currency : Option String) (dd : Option FieldDescription),
      (FieldDescription.CurrencyDecimalFieldDescription none currency dd).render
        = (FieldDescription.CurrencyDecimalFieldDescription (some false) currency dd).render) ∧
    (∀ (currency : Option String) (idesc : Option FieldDescription),
      (FieldDescription.CurrencyIntegerFieldDescription none currency idesc).render
        = (FieldDescription.CurrencyIntegerFieldDescription (some false) currency idesc).render) ∧
    CurrencyIntegerFieldDescription.INSTANCE
      = .CurrencyIntegerFieldDescription none none none ∧
    CurrencyDecimalFieldDescription.INSTANCE
      = .CurrencyDecimalFieldDescription none none none ∧
    CurrencyIntegerFieldDescription.INSTANCE.render = ("currency/post//", false) ∧
    CurrencyDecimalFieldDescription.INSTANCE.render = ("currency/post//", false) :=
  ⟨fun _ dd => by cases dd <;> rfl, fun _ idesc => by cases idesc <;> rfl,
    rfl, rfl, rfl, rfl⟩

/-- Helper: whatever `to_field_processor` returns, the description it
returns alongside the processor is the description it was called on — the
embedded method bodies build the processor and touch no field. -/
theorem tfp_snd : ∀ (d : FieldDescription) (nv : String) (p : FieldProcessor)
    (d2 : FieldDescription), d.to_field_processor nv = some (p, d2) → d2 = d
  | .BooleanFieldDescription _ _, _, _, _, h => by
    simp [FieldDescription.to_field_processor] at h
    exact h.2.symm
  | .CurrencyDecimalFieldDescription pre c dd, nv, p, d2, h => by
    match dd with
    | none => simp [FieldDescription.to_field_processor] at h
    | some d1 =>
      cases htfp : d1.to_field_processor nv with
      | none => simp [FieldDescription.to_field_processor, htfp] at h
      | some pd =>
        obtain ⟨p1, d2'⟩ := pd
        have hsnd : d2' = d1 := tfp_snd d1 nv p1 d2' htfp
        simp [FieldDescription.to_field_processor, htfp] at h
        rw [← h.2, hsnd]
  | .CurrencyIntegerFieldDescription pre c idesc, nv, p, d2, h => by
    match idesc with
    | none => simp [FieldDescription.to_field_processor] at h
    | some d1 =>
      cases htfp : d1.to_field_processor nv with
      | none => simp [FieldDescription.to_field_processor, htfp] at h
      | some pd =>
        obtain ⟨p1, d2'⟩ := pd
        have hsnd : d2' = d1 := tfp_snd d1 nv p1 d2' htfp
        simp [FieldDescription.to_field_processor, htfp] at h
        rw [← h.2, hsnd]
  | .DateFieldDescription _ _, _, _, _, h => by
    simp [FieldDescription.to_field_processor] at h
    exact h.2.symm
  | .DatetimeFieldDescription _ _, _, _, _, h => by
    simp [FieldDescription.to_field_processor] at h
    exact h.2.symm
  | .DecimalFieldDescription _ _, _, _, _, h => by
    simp [FieldDescription.to_field_processor] at h
    exact h.2.symm
  | .FloatFieldDescription _ _, _, _, _, h => by
    simp [FieldDescription.to_field_processor] at h
    exact h.2.symm
  | .IntegerFieldDescription _, _, _, _, h => by
    simp [FieldDescription.to_field_processor] at h
    exact h.2.symm
  | .PercentageFloatFieldDescription pre s fd, nv, p, d2, h => by
    match fd with
    | none => simp [FieldDescription.to_field_processor] at h
    | some d1 =>
      cases htfp : d1.to_field_processor nv with
      | none => simp [FieldDescription.to_field_processor, htfp] at h
      | some pd =>
        obtain ⟨p1, d2'⟩ := pd
        have hsnd : d2' = d1 := tfp_snd d1 nv p1 d2' htfp
        simp [FieldDescription.to_field_processor, htfp] at h
        rw [← h.2, hsnd]
  | .PercentageDecimalFieldDescription pre s dd, nv, p, d2, h => by
    match dd with
    | none => simp [FieldDescription.to_field_processor] at h
    | some d1 =>
      cases htfp : d1.to_field_processor nv with
      | none => simp [FieldDescription.to_field_processor, htfp] at h
      | some pd =>
        obtain ⟨p1, d2'⟩ := pd
        have hsnd : d2' = d1 := tfp_snd d1 nv p1 d2' htfp
        simp [FieldDescription.to_field_processor, htfp] at h
        rw [← h.2, hsnd]
  | .TextFieldDescription, _, _, _, h => by
    simp [FieldDescription.to_field_processor] at h
    exact h.2.symm

/-- Helper: on a proper description (every wrapped slot holds a
description), `to_field_processor` returns a processor. -/
theorem tfp_proper_isSome : ∀ (d : FieldDescription) (nv : String),
    d.proper = true → (d.to_field_processor nv).isSome = true
  | .BooleanFieldDescription _ _, _, _ => rfl
  | .CurrencyDecimalFieldDescription pre c dd, nv, hp => by
    match dd with
    | none => simp [FieldDescription.proper] at hp
    | some d1 =>
      have hp1 : d1.proper = true := by simpa [FieldDescription.proper] using hp
      have h1 := tfp_proper_isSome d1 nv hp1
      cases htfp : d1.to_field_processor nv with
      | none => rw [htfp] at h1; simp at h1
      | some pd =>
        obtain ⟨p1, d2'⟩ := pd
        simp [FieldDescription.to_field_processor, htfp]
  | .CurrencyIntegerFieldDescription pre c idesc, nv, hp => by
    match idesc with
    | none => simp [FieldDescription.proper] at hp
    | some d1 =>
      have hp1 : d1.proper = true := by simpa [FieldDescription.proper] using hp
      have h1 := tfp_proper_isSome d1 nv hp1
      cases htfp : d1.to_field_processor nv with
      | none => rw [htfp] at h1; simp at h1
      | some pd =>
        obtain ⟨p1, d2'⟩ := pd
        simp [FieldDescription.to_field_processor, htfp]
  | .DateFieldDescription _ _, _, _ => rfl
  | .DatetimeFieldDescription _ _, _, _ => rfl
  | .DecimalFieldDescription _ _, _, _ => rfl
  | .FloatFieldDescription _ _, _, _ => rfl
  | .IntegerFieldDescription _, _, _ => rfl
  | .PercentageFloatFieldDescription pre s fd, nv, hp => by
    match fd with
    | none => simp [FieldDescription.proper] at hp
    | some d1 =>
      have hp1 : d1.proper = true := by simpa [FieldDescription.proper] using hp
      have h1 := tfp_proper_isSome d1 nv hp1
      cases htfp : d1.to_field_processor nv with
      | none => rw [htfp] at h1; simp at h1
      | some pd =>
        obtain ⟨p1, d2'⟩ := pd
        simp [FieldDescription.to_field_processor, htfp]
  | .PercentageDecimalFieldDescription pre s dd, nv, hp => by
    match dd with
    | none => simp [FieldDescription.proper] at hp
    | some d1 =>
      have hp1 : d1.proper = true := by simpa [FieldDescription.proper] using hp
      have h1 := tfp_proper_isSome d1 nv hp1
      cases htfp : d1.to_field_processor nv with
      | none => rw [htfp] at h1; simp at h1
      | some pd =>
        obtain ⟨p1, d2'⟩ := pd
        simp [FieldDescription.to_field_processor, htfp]
  | .TextFieldDescription, _, _ => rfl

/-- Claim C8: for every description and every null-value token,
`to_field_processor` returns a new FieldProcessor (on every proper
description) and never mutates the description: whatever it returns, the
description after the call is the one before it, so the rendered form
before and after the call is the same. -/
theorem to_field_processor_returns_processor_and_never_mutates
    (d : FieldDescription) (nv : String) :
    (d.proper = true → (d.to_field_processor nv).isSome = true) ∧
    (∀ p d2, d.to_field_processor nv = some (p, d2) →
      d2 = d ∧ d2.render = d.render) := by
  refine ⟨fun hp => tfp_proper_isSome d nv hp, fun p d2 h => ?_⟩
  have hsnd := tfp_snd d nv p d2 h
  exact ⟨hsnd, by rw [hsnd]⟩

/-- Witness for claim C8 at a concrete composite description and the
null-value token "NULL". -/
theorem to_field_processor_returns_processor_and_never_mutates_witness :
    ((FieldDescription.CurrencyDecimalFieldDescription (some false) (some "$")
        (some (.DecimalFieldDescription none "."))).to_field_processor "NULL").isSome
      = true ∧
    (FieldDescription.CurrencyDecimalFieldDescription (some false) (some "$")
        (some (.DecimalFieldDescription none "."))).render
      = (FieldDescription.CurrencyDecimalFieldDescription (some false) (some "$")
        (some (.DecimalFieldDescription none "."))).render :=
  ⟨(to_field_processor_returns_processor_and_never_mutates
      (.CurrencyDecimalFieldDescription (some false) (some "$")
        (some (.DecimalFieldDescription none "."))) "NULL").1 rfl,
   ((to_field_processor_returns_processor_and_never_mutates
      (.CurrencyDecimalFieldDescription (some false) (some "$")
        (some (.DecimalFieldDescription none "."))) "NULL").2
      (.CurrencyFieldProcessor (some false) (some "$")
        (.DecimalFieldProcessor none "." "NULL") "NULL")
      (.CurrencyDecimalFieldDescription (some false) (some "$")
        (some (.DecimalFieldDescription none "."))) rfl).2⟩

/-- Helper: when the processor dictionary is built successfully, looking up
a column index in it gives exactly the processor built (with the table's
null-value token) from the description at that index, and nothing for an
undescribed index. -/
theorem processors_dict_find (nv : String) :
    ∀ (l : List (Nat × FieldDescription)) (ps : List (Nat × FieldProcessor)),
      processors_by_index nv l = some ps → ∀ i : Nat,
        match dict_find l i with
        | some d => ∃ pr d2, d.to_field_processor nv = some (pr, d2) ∧
            dict_find ps i = some pr
        | none => dict_find ps i = none
  | [], ps, h, i => by
    simp [processors_by_index] at h
    subst h
    simp [dict_find]
  | (j, d) :: rest, ps, h, i => by
    cases htfp : d.to_field_processor nv with
    | none => simp [processors_by_index, htfp] at h
    | some pd =>
      obtain ⟨p1, d2'⟩ := pd
      cases hrest : processors_by_index nv rest with
      | none => simp [processors_by_index, htfp, hrest] at h
      | some ps' =>
        simp [processors_by_index, htfp, hrest] at h
        subst h
        by_cases hij : j = i
        · subst hij
          simp only [dict_find, if_pos rfl]
          exact ⟨p1, d2', htfp, rfl⟩
        · simp only [dict_find, if_neg hij]
          exact processors_dict_find nv rest ps' hrest i

/-- Claim C10: the row-mapping function built by the writer factory maps a
row to an output of exactly the same length, where cell i is produced by
column i's field processor (`to_string`) when a field description exists
for index i — one processor per described column, each built with the
table's single null-value token — and by Python `str` otherwise. -/
theorem map_row_structure (data : MetaCSVData) (f : List Value → List String)
    (hf : MetaCSVWriterFactory.get_map_row data = some f) (row : List Value) :
    (f row).length = row.length ∧
    ∀ (i : Nat) (v : Value), row[i]? = some v →
      match dict_find data.field_description_by_index i with
      | some d => ∃ pr d2, d.to_field_processor data.null_value = some (pr, d2) ∧
          (f row)[i]? = some (pr.to_string v)
      | none => (f row)[i]? = some v.pyStr := by
  unfold MetaCSVWriterFactory.get_map_row at hf
  cases hps : processors_by_index data.null_value data.field_description_by_index with
  | none => rw [hps] at hf; cases hf
  | some ps =>
    rw [hps] at hf
    injection hf with hfun
    subst hfun
    refine ⟨by simp, fun i v hv => ?_⟩
    have hlp := processors_dict_find data.null_value
      data.field_description_by_index ps hps i
    have hcell : (row.enum.map (fun iv =>
        match dict_find ps iv.1 with
        | some p => p.to_string iv.2
        | none => iv.2.pyStr))[i]?
        = some (match dict_find ps i with
                | some p => p.to_string v
                | none => v.pyStr) := by
      rw [List.getElem?_map, List.getElem?_enum, hv]
      rfl
    cases hdf : dict_find data.field_description_by_index i with
    | some d =>
      rw [hdf] at hlp
      obtain ⟨pr, d2, htfp, hfind⟩ := hlp
      rw [hfind] at hcell
      exact ⟨pr, d2, htfp, hcell⟩
    | none =>
      rw [hdf] at hlp
      rw [hlp] at hcell
      exact hcell

/-- A concrete table for the claim-C10 witness: null token "NULL", a
boolean description on column 0, columns 1 and 2 undescribed. -/
def sampleData : MetaCSVData :=
  ⟨"NULL", [(0, .BooleanFieldDescription "true" "false")]⟩

/-- A concrete row for the claim-C10 witness. -/
def sampleRow : List Value := [Value.bool true, Value.int 3]

/-- The row-mapping function the factory builds for `sampleData`. -/
def sampleMapRow : List Value → List String :=
  (MetaCSVWriterFactory.get_map_row sampleData).getD (fun _ => [])

/-- Witness for claim C10 on `sampleData` and `sampleRow`: the mapped row
has the row's length, the described cell 0 goes through the boolean
processor, and the undescribed cell 1 goes through Python `str`. -/
theorem map_row_structure_witness :
    (sampleMapRow sampleRow).length = 2 ∧
    (sampleMapRow sampleRow)[0]? = some "true" ∧
    (sampleMapRow sampleRow)[1]? = some "3" := by
  have h := map_row_structure sampleData sampleMapRow rfl sampleRow
  refine ⟨h.1.trans rfl, ?_, ?_⟩
  · have h0 := h.2 0 (Value.bool true) rfl
    simp only [show dict_find sampleData.field_description_by_index 0
        = some (.BooleanFieldDescription "true" "false") from rfl] at h0
    obtain ⟨pr, d2, htfp, hcell⟩ := h0
    have hpr : pr = FieldProcessor.BooleanFieldProcessor "true" "false" "NULL" := by
      have : some (pr, d2)
          = some ((FieldProcessor.BooleanFieldProcessor "true" "false" "NULL" : FieldProcessor),
              (FieldDescription.BooleanFieldDescription "true" "false" : FieldDescription)) :=
        htfp.symm.trans rfl
      injection this with hpair
      exact congrArg Prod.fst hpair
    rw [hpr] at hcell
    exact hcell
  · have h1 := h.2 1 (Value.int 3) rfl
    simpa only [show dict_find sampleData.field_description_by_index 1
        = (none : Option FieldDescription) from rfl] using h1

end Mcsv
